import Mathlib

/-!
Verification development for the vtkio legacy VTK codec core.

The sources under verification are src/basic.rs (primitive scalar decode
layer) and src/writer.rs (write engine, text sink).  Byte strings are
modelled as lists of natural numbers below 256, machine integers as Nat
or Int with explicit twos-complement reinterpretation where the source
casts, and floating point values read in binary as their raw bit
pattern.  ASCII real numbers are modelled as exact rationals; every
concrete value appearing in the claims is exactly representable in both
binary32 and binary64, so the rational model is faithful on them.
-/

namespace Vtkio

/-! ## Scalar kinds and the type-erased buffer (modelled from the spec,
section 3, where the model.rs source is not among the provided files) -/

/-- Modelled from the spec: the ten supported scalar element types of the
type-erased buffer. -/
inductive ScalarKind
  | u8 | i8 | u16 | i16 | u32 | i32 | u64 | i64 | f32 | f64
  deriving DecidableEq, Repr

/-- Size in bytes of each scalar type, matching sizeof in impl_from_binary. -/
def scalarSize : ScalarKind → Nat
  | .u8 => 1
  | .i8 => 1
  | .u16 => 2
  | .i16 => 2
  | .u32 => 4
  | .i32 => 4
  | .u64 => 8
  | .i64 => 8
  | .f32 => 4
  | .f64 => 8

/-- Modelled from the spec: the fixed legacy type tag vocabulary used by the
writer (DataType display). -/
def dataTypeStr : ScalarKind → String
  | .u8 => "unsigned_char"
  | .i8 => "char"
  | .u16 => "unsigned_short"
  | .i16 => "short"
  | .u32 => "unsigned_int"
  | .i32 => "int"
  | .u64 => "unsigned_long"
  | .i64 => "long"
  | .f32 => "float"
  | .f64 => "double"

/-- Modelled from the spec: the type-erased buffer holds one element kind and a
homogeneous sequence of values (values as exact rationals). -/
structure IOBuffer where
  kind : ScalarKind
  data : List ℚ
  deriving DecidableEq

/-- Buffer length, as in IOBuffer len. -/
def IOBuffer.len (b : IOBuffer) : Nat := b.data.length

/-! ## Binary decode layer (src/basic.rs, FromBinary) -/

/-- Byte order selector, as the two concrete byteorder instantiations
(NativeEndian is an alias of one of them). -/
inductive ByteOrd
  | be | le
  deriving DecidableEq

/-- The nom IResult shape used by the decode layer: Done with the remaining
input, Incomplete with the needed size, or a malformed-content failure. -/
inductive IRes (α : Type)
  | Done (rest : List Nat) (val : α)
  | Incomplete (needed : Nat)
  | ParseFail
  deriving DecidableEq

def iresMap {α β : Type} (f : α → β) : IRes α → IRes β
  | .Done r v => .Done r (f v)
  | .Incomplete n => .Incomplete n
  | .ParseFail => .ParseFail

/-- Big-endian combination of a list of bytes into a natural number. -/
def beCombine : List Nat → Nat
  | [] => 0
  | b :: r => b * 256 ^ r.length + beCombine r

/-- The value read by the byteorder read functions at a given width. -/
def readWord (bo : ByteOrd) (size : Nat) (input : List Nat) : Nat :=
  match bo with
  | .be => beCombine (input.take size)
  | .le => beCombine (input.take size).reverse

/-- Twos-complement reinterpretation of an unsigned value at bit width w. -/
def toSigned (w : Nat) (n : Nat) : Int :=
  if n < 2 ^ (w - 1) then (n : Int) else (n : Int) - 2 ^ w

/-- The Rust cast from u8 to i8 used by the one-byte impl_from_binary arm. -/
def toI8 (b : Nat) : Int := toSigned 8 b

/-- Embeds the second impl_from_binary macro arm (src/basic.rs lines 89-101):
check the length, else read sizeof bytes at the given byte order. -/
def from_binary_w (size : Nat) (bo : ByteOrd) (input : List Nat) : IRes Nat :=
  if input.length < size then .Incomplete size
  else .Done (input.drop size) (readWord bo size input)

/-- Embeds FromBinary::from_binary for each of the ten scalar types
(src/basic.rs, impl_from_binary): the one-byte arm indexes the first byte
directly (signed bytes by twos-complement reinterpretation), the multi-byte
arm delegates to the byteorder read at the type size.  Unsigned and floating
results are the nonnegative word value (for floats, the raw bit pattern);
signed results are the twos-complement reinterpretation of the word. -/
def from_binary (k : ScalarKind) (bo : ByteOrd) (input : List Nat) : IRes Int :=
  match k with
  | .u8 =>
    match input with
    | [] => .Incomplete 1
    | b :: rest => .Done rest (b : Int)
  | .i8 =>
    match input with
    | [] => .Incomplete 1
    | b :: rest => .Done rest (toI8 b)
  | .u16 => iresMap (fun n : Nat => (n : Int)) (from_binary_w 2 bo input)
  | .i16 => iresMap (toSigned 16) (from_binary_w 2 bo input)
  | .u32 => iresMap (fun n : Nat => (n : Int)) (from_binary_w 4 bo input)
  | .i32 => iresMap (toSigned 32) (from_binary_w 4 bo input)
  | .u64 => iresMap (fun n : Nat => (n : Int)) (from_binary_w 8 bo input)
  | .i64 => iresMap (toSigned 64) (from_binary_w 8 bo input)
  | .f32 => iresMap (fun n : Nat => (n : Int)) (from_binary_w 4 bo input)
  | .f64 => iresMap (fun n : Nat => (n : Int)) (from_binary_w 8 bo input)

/-- Embeds the FileType::Binary arm of parse_data_vec_i8 (src/basic.rs lines
229-243): the unsafe raw-byte reinterpretation is the elementwise
twos-complement map over the first n bytes. -/
def parse_data_vec_i8_binary (input : List Nat) (n : Nat) : IRes (List Int) :=
  if input.length < n then .Incomplete n
  else .Done (input.drop n) ((input.take n).map toI8)

/-! ## ASCII real-number grammar (src/basic.rs, impl_real_parser) -/

/-- Optional leading sign; true means negative. -/
def parseSign : List Char → Bool × List Char
  | '+' :: r => (false, r)
  | '-' :: r => (true, r)
  | s => (false, s)

def digitsValAux (acc : Nat) : List Char → Nat
  | [] => acc
  | c :: r => digitsValAux (acc * 10 + (c.toNat - '0'.toNat)) r

/-- Decimal value of a digit string. -/
def digitsVal (s : List Char) : Nat := digitsValAux 0 s

/-- Exact value of a decimal literal with integer part ip and fraction fp,
written as one exact fraction so that it evaluates by kernel reduction:
the value is ip plus fp divided by ten to the fraction length. -/
def decVal (ip fp : List Char) : ℚ :=
  mkRat ((digitsVal ip * 10 ^ fp.length + digitsVal fp : Nat) : Int) (10 ^ fp.length)

/-- Embeds the mantissa alternation of the real grammar, tried in source
order: digits dot optional-digits, optional-digits dot digits, bare digits. -/
def parseMantissa (s : List Char) : Option (ℚ × List Char) :=
  let d1 := s.takeWhile Char.isDigit
  let r1 := s.dropWhile Char.isDigit
  if d1.isEmpty then
    match r1 with
    | '.' :: r2 =>
      let d2 := r2.takeWhile Char.isDigit
      let r3 := r2.dropWhile Char.isDigit
      if d2.isEmpty then none else some (decVal [] d2, r3)
    | _ => none
  else
    match r1 with
    | '.' :: r2 =>
      let d2 := r2.takeWhile Char.isDigit
      let r3 := r2.dropWhile Char.isDigit
      some (decVal d1 d2, r3)
    | _ => some ((digitsVal d1 : ℚ), r1)

/-- Embeds the optional exponent: e or E, optional sign, one or more digits;
when the digits are missing the whole exponent part is rejected and nothing
is consumed (opt of complete in the source). -/
def parseExp (s : List Char) : Option (Int × List Char) :=
  match s with
  | c :: r =>
    if c = 'e' ∨ c = 'E' then
      let p := parseSign r
      let d := p.2.takeWhile Char.isDigit
      let r3 := p.2.dropWhile Char.isDigit
      if d.isEmpty then none
      else some ((if p.1 then -(digitsVal d : Int) else (digitsVal d : Int)), r3)
    else none
  | [] => none

/-- Scale the mantissa by ten to the exponent: multiplication and division
by a power of ten written as one exact fraction so that it evaluates by
kernel reduction. -/
def applyExp (m : ℚ) (e : Int) : ℚ :=
  if 0 ≤ e then mkRat (m.num * ((10 ^ e.toNat : Nat) : Int)) m.den
  else mkRat m.num (m.den * 10 ^ (-e).toNat)

/-- Negate the value when the sign was negative. -/
def applySign (neg : Bool) (q : ℚ) : ℚ := if neg then mkRat (-q.num) q.den else q

/-- Embeds the real parser of src/basic.rs (impl_real_parser at line 23):
optional sign, mantissa, optional exponent, with the recognized token
evaluated exactly as a rational. -/
def real (s : List Char) : Option (ℚ × List Char) :=
  let p := parseSign s
  match parseMantissa p.2 with
  | none => none
  | some (m, s2) =>
    match parseExp s2 with
    | some (e, s3) => some (applySign p.1 (applyExp m e), s3)
    | none => some (applySign p.1 m, s2)

/-- Whitespace characters eaten by the nom ws wrapper used in
parse_data_vec for the ASCII arm. -/
def wsChars : List Char := [' ', '\t', '\n', '\r']

def skipWs (s : List Char) : List Char := s.dropWhile (fun c => wsChars.contains c)

/-- Embeds many_m_n n n over the whitespace-wrapped element parser, the ASCII
arm of parse_data_vec (src/basic.rs line 205). -/
def many_n (p : List Char → Option (ℚ × List Char)) :
    Nat → List Char → Option (List ℚ × List Char)
  | 0, s => some ([], s)
  | n + 1, s =>
    match p (skipWs s) with
    | none => none
    | some (v, r) =>
      match many_n p n r with
      | none => none
      | some (vs, r2) => some (v :: vs, r2)

/-- Embeds impl_from_ascii for f32: routes to the real parser. -/
def from_ascii_f32 : List Char → Option (ℚ × List Char) := real

/-- Embeds impl_from_ascii for f64: routes to the real parser. -/
def from_ascii_f64 : List Char → Option (ℚ × List Char) := real

/-- The ASCII arm of parse_data_vec instantiated at f32. -/
def parse_data_vec_f32_ascii : Nat → List Char → Option (List ℚ × List Char) :=
  many_n from_ascii_f32

/-- The ASCII arm of parse_data_vec instantiated at f64. -/
def parse_data_vec_f64_ascii : Nat → List Char → Option (List ℚ × List Char) :=
  many_n from_ascii_f64

/-! ## Data model for the writer (modelled from the spec, section 3) -/

structure Version where
  major : Nat
  minor : Nat
  deriving DecidableEq

/-- Modelled from the spec: the header renders the version as major.minor. -/
def versionShow (v : Version) : String :=
  toString v.major ++ "." ++ toString v.minor

structure Cells where
  num_cells : Nat
  vertices : List Nat
  deriving DecidableEq

inductive PolyDataTopology
  | Vertices (c : Cells)
  | Lines (c : Cells)
  | Polygons (c : Cells)
  | TriangleStrips (c : Cells)
  deriving DecidableEq

/-- Modelled from the spec: a cell type is identified by its numeric code. -/
structure CellType where
  code : Nat
  deriving DecidableEq

structure FieldArray where
  name : String
  num_comp : Nat
  data : IOBuffer
  deriving DecidableEq

inductive Attribute
  | Scalars (num_comp : Nat) (lookup_table : Option String) (data : IOBuffer)
  | ColorScalars (num_comp : Nat) (data : IOBuffer)
  | LookupTable (data : IOBuffer)
  | Vectors (data : IOBuffer)
  | Normals (data : IOBuffer)
  | TextureCoordinates (dim : Nat) (data : IOBuffer)
  | Tensors (data : IOBuffer)
  | Field (data_array : List FieldArray)
  deriving DecidableEq

structure Attributes where
  point : List (String × Attribute)
  cell : List (String × Attribute)
  deriving DecidableEq

/-- Modelled from the spec: inclusive integer bounds along the three axes. -/
structure Extent where
  x0 : Int
  x1 : Int
  y0 : Int
  y1 : Int
  z0 : Int
  z1 : Int
  deriving DecidableEq

/-- Modelled from the spec: dims are per-axis max minus min plus one. -/
def Extent.intoDims (e : Extent) : Int × Int × Int :=
  (e.x1 - e.x0 + 1, e.y1 - e.y0 + 1, e.z1 - e.z0 + 1)

inductive DataSet
  | Field (name : String) (data_array : List FieldArray)
  | PolyData (points : IOBuffer) (topo : List PolyDataTopology) (data : Attributes)
  | UnstructuredGrid (points : IOBuffer) (cells : Cells)
      (cell_types : List CellType) (data : Attributes)
  | ImageData (extent : Extent) (origin : ℚ × ℚ × ℚ) (spacing : ℚ × ℚ × ℚ)
      (data : Attributes)
  | StructuredGrid (extent : Extent) (points : IOBuffer) (data : Attributes)
  | RectilinearGrid (extent : Extent) (x_coords y_coords z_coords : IOBuffer)
      (data : Attributes)
  deriving DecidableEq

structure Vtk where
  version : Version
  title : String
  data : DataSet
  deriving DecidableEq

/-! ## Error taxonomy (src/writer.rs, mod error) -/

/-- Stand-in for std io ErrorKind; the text sink never produces one. -/
inductive IOErrorKind
  | other
  deriving DecidableEq

inductive EntryPart
  | Tags
  | Sizes
  | Header
  | Data (kind : Option IOErrorKind)
  | LookupTable
  deriving DecidableEq

inductive AttributeError
  | Scalars (p : EntryPart)
  | ColorScalars (p : EntryPart)
  | LookupTable (p : EntryPart)
  | Vectors (p : EntryPart)
  | Normals (p : EntryPart)
  | TextureCoordinates (p : EntryPart)
  | Tensors (p : EntryPart)
  | Field (p : EntryPart)
  | FieldArray (p : EntryPart)
  deriving DecidableEq

inductive Header
  | Version
  | Title
  | FileType
  deriving DecidableEq

inductive DataSetPart
  | Tags
  | Points (p : EntryPart)
  | Cells (p : EntryPart)
  | CellTypes (p : EntryPart)
  | Dimensions
  | Origin
  | Spacing (p : EntryPart)
  | XCoordinates (p : EntryPart)
  | YCoordinates (p : EntryPart)
  | ZCoordinates (p : EntryPart)
  deriving DecidableEq

inductive DataSetError
  | FieldDataHeader
  | FieldArray (p : EntryPart)
  | PolyData (p : DataSetPart)
  | UnstructuredGrid (p : DataSetPart)
  | StructuredGrid (p : DataSetPart)
  | StructuredPoints (p : DataSetPart)
  | RectilinearGrid (p : DataSetPart)
  deriving DecidableEq

inductive Error
  | PointDataHeader
  | CellDataHeader
  | Attribute (e : AttributeError)
  | Header (h : Header)
  | DataSet (e : DataSetError)
  | NewLine
  | DataMismatchError
  | FormatError
  | IOError (k : IOErrorKind)
  deriving DecidableEq

/-- The Into implementation extracting the io kind from an error
(src/writer.rs lines 95-102). -/
def ioKindOf : Error → Option IOErrorKind
  | .IOError k => some k
  | _ => none

/-! ## The text (String) sink write engine (src/writer.rs) -/

/-- Sink state: the accumulated output and a count of the write_fmt calls
made so far (the count indexes the fault model below). -/
structure WS where
  out : String
  ctr : Nat
  deriving DecidableEq

/-- Writer outcome: a tagged error (the Error taxonomy) or a Rust panic
(assertion failure, arithmetic underflow, division by zero), which is not a
returned error. -/
inductive WErr
  | tagged (e : Error)
  | panicked
  deriving DecidableEq

abbrev WRes := Except WErr WS

/-- One write_fmt call on the text sink: the fault model ff says whether the
k-th call fails; on failure the given tag (the map_err at the call site)
is returned. -/
def emit (ff : Nat → Bool) (tag : Error) (s : String) (w : WS) : WRes :=
  if ff w.ctr then .error (.tagged tag) else .ok ⟨w.out ++ s, w.ctr + 1⟩

/-- Re-tag a tagged error, as the map_err combinators at the call sites. -/
def mapTag (f : Error → Error) : WRes → WRes
  | .error (.tagged e) => .error (.tagged (f e))
  | r => r

/-- The fault-free sink: no write_fmt call fails. -/
def noFail : Nat → Bool := fun _ => false

/-- Modelled from the spec: the canonical whitespace-separated token
rendering of a buffer (the Display of IOBuffer used by the text sink). -/
def tokLine : List String → String
  | [] => ""
  | [x] => x
  | x :: y :: r => x ++ " " ++ tokLine (y :: r)

def bufShow (b : IOBuffer) : String := tokLine (b.data.map toString)

/-- Embeds write_buf of the String sink (src/writer.rs line 685): one
writeln of the buffer display; a failure is a format error. -/
def writeBuf (ff : Nat → Bool) (b : IOBuffer) (w : WS) : WRes :=
  emit ff Error.FormatError (bufShow b ++ "\n") w

/-- Embeds the element loop of write_u32_vec of the String sink
(src/writer.rs lines 675-681): each element and each separating space is
one write call. -/
def writeU32VecAux (ff : Nat → Bool) : List Nat → WS → WRes
  | [], w => pure w
  | [x], w => emit ff Error.FormatError (toString x) w
  | x :: y :: r, w => do
    let w1 ← emit ff Error.FormatError (toString x) w
    let w2 ← emit ff Error.FormatError (" ") w1
    writeU32VecAux ff (y :: r) w2

/-- Embeds write_u32_vec of the String sink: the element loop then a final
newline. -/
def writeU32Vec (ff : Nat → Bool) (xs : List Nat) (w : WS) : WRes := do
  let w1 ← writeU32VecAux ff xs w
  emit ff Error.FormatError ("\n") w1

/-- The error value used by write_cell_types of the String sink. -/
def ctErr : Error :=
  Error.DataSet (DataSetError.UnstructuredGrid (DataSetPart.CellTypes
    (EntryPart.Data none)))

/-- Embeds the loop of write_cell_types of the String sink (src/writer.rs
lines 665-673): one writeln per code, cast to u8. -/
def writeCellTypesAux (ff : Nat → Bool) : List CellType → WS → WRes
  | [], w => pure w
  | t :: r, w => do
    let w1 ← emit ff ctErr (toString (t.code % 256) ++ "\n") w
    writeCellTypesAux ff r w1

/-- Embeds write_cell_types of the String sink: the loop then a final
newline (tagged with the same cell-types error in the source). -/
def writeCellTypes (ff : Nat → Bool) (ts : List CellType) (w : WS) : WRes := do
  let w1 ← writeCellTypesAux ff ts w
  emit ff ctErr ("\n") w1

/-- Embeds the per-array loop shared by the Field attribute arm of
write_attrib_data and the Field dataset arm of write_vtk_impl; the two call
sites differ only in the error tags, passed in as hTag and dTag.  A zero
component count makes the tuple-count division panic. -/
def writeFieldArrays (ff : Nat → Bool) (hTag : Error)
    (dTag : Option IOErrorKind → Error) : List FieldArray → WS → WRes
  | [], w => pure w
  | f :: rest, w =>
    if f.num_comp = 0 then .error .panicked
    else do
      let w1 ← emit ff hTag
        (f.name ++ " " ++ toString f.num_comp ++ " "
          ++ toString (f.data.len / f.num_comp) ++ " "
          ++ dataTypeStr f.data.kind ++ "\n") w
      let w2 ← mapTag (fun e => dTag (ioKindOf e)) (writeBuf ff f.data w1)
      writeFieldArrays ff hTag dTag rest w2

/-- Embeds the body of one iteration of the write_attrib_data loop
(src/writer.rs lines 149-277), for one named attribute. -/
def writeOneAttrib (ff : Nat → Bool) (name : String) : Attribute → WS → WRes
  | .Scalars num_comp lookup_table data, w => do
    let w1 ← emit ff (.Attribute (.Scalars .Header))
      ("SCALARS " ++ name ++ " " ++ dataTypeStr data.kind ++ " "
        ++ toString num_comp ++ "\n") w
    let w2 ← emit ff (.Attribute (.Scalars .LookupTable))
      ("LOOKUP_TABLE " ++ lookup_table.getD ("default") ++ "\n") w1
    mapTag (fun e => .Attribute (.Scalars (.Data (ioKindOf e)))) (writeBuf ff data w2)
  | .ColorScalars num_comp data, w => do
    let w1 ← emit ff (.Attribute (.ColorScalars .Header))
      ("COLOR_SCALARS " ++ name ++ " " ++ toString num_comp ++ "\n") w
    mapTag (fun e => .Attribute (.ColorScalars (.Data (ioKindOf e)))) (writeBuf ff data w1)
  | .LookupTable data, w => do
    let w1 ← emit ff (.Attribute (.LookupTable .Header))
      ("LOOKUP_TABLE " ++ name ++ " " ++ toString (data.len / 4) ++ "\n") w
    mapTag (fun e => .Attribute (.LookupTable (.Data (ioKindOf e)))) (writeBuf ff data w1)
  | .Vectors data, w => do
    let w1 ← emit ff (.Attribute (.Vectors .Header))
      ("VECTORS " ++ name ++ " " ++ dataTypeStr data.kind ++ "\n") w
    mapTag (fun e => .Attribute (.Vectors (.Data (ioKindOf e)))) (writeBuf ff data w1)
  | .Normals data, w => do
    let w1 ← emit ff (.Attribute (.Normals .Header))
      ("NORMALS " ++ name ++ " " ++ dataTypeStr data.kind ++ "\n") w
    mapTag (fun e => .Attribute (.Normals (.Data (ioKindOf e)))) (writeBuf ff data w1)
  | .TextureCoordinates dim data, w => do
    let w1 ← emit ff (.Attribute (.TextureCoordinates .Header))
      ("TEXTURE_COORDINATES " ++ name ++ " " ++ toString dim ++ " "
        ++ dataTypeStr data.kind ++ "\n") w
    mapTag (fun e => .Attribute (.TextureCoordinates (.Data (ioKindOf e))))
      (writeBuf ff data w1)
  | .Tensors data, w => do
    let w1 ← emit ff (.Attribute (.Tensors .Header))
      ("TENSORS " ++ name ++ " " ++ dataTypeStr data.kind ++ "\n") w
    mapTag (fun e => .Attribute (.Tensors (.Data (ioKindOf e)))) (writeBuf ff data w1)
  | .Field data_array, w => do
    let w1 ← emit ff (.Attribute (.Field .Header))
      ("FIELD " ++ name ++ " " ++ toString data_array.length ++ "\n") w
    writeFieldArrays ff (.Attribute (.FieldArray .Header))
      (fun k => .Attribute (.FieldArray (.Data k))) data_array w1

/-- Embeds write_attrib_data (src/writer.rs line 146): a leading newline
then the attribute body, for each named attribute in order. -/
def writeAttribData (ff : Nat → Bool) : List (String × Attribute) → WS → WRes
  | [], w => pure w
  | (name, attrib) :: rest, w => do
    let w1 ← emit ff Error.NewLine ("\n") w
    let w2 ← writeOneAttrib ff name attrib w1
    writeAttribData ff rest w2

/-- Embeds write_attrib (src/writer.rs line 133): the POINT_DATA header and
point attributes, then the CELL_DATA header and cell attributes. -/
def writeAttrib (ff : Nat → Bool) (data : Attributes) (num_points num_cells : Nat)
    (w : WS) : WRes := do
  let w1 ← emit ff Error.PointDataHeader
    ("\nPOINT_DATA " ++ toString num_points ++ "\n") w
  let w2 ← writeAttribData ff data.point w1
  let w3 ← emit ff Error.CellDataHeader
    ("\nCELL_DATA " ++ toString num_cells ++ "\n") w2
  writeAttribData ff data.cell w3

/-- Tag keyword of a polydata topology group (src/writer.rs lines 336-339). -/
def topoTag : PolyDataTopology → String
  | .Vertices _ => "VERTICES"
  | .Lines _ => "LINES"
  | .Polygons _ => "POLYGONS"
  | .TriangleStrips _ => "TRIANGLE_STRIPS"

/-- The cells wrapped by a topology group (src/writer.rs lines 347-352). -/
def topoCells : PolyDataTopology → Cells
  | .Vertices c => c
  | .Lines c => c
  | .Polygons c => c
  | .TriangleStrips c => c

/-- Embeds the topology loop of the PolyData arm of write_vtk_impl
(src/writer.rs lines 333-369), iterating the groups in the order given by
the document and accumulating the cell count. -/
def writeTopo (ff : Nat → Bool) : List PolyDataTopology → WS → Nat →
    Except WErr (WS × Nat)
  | [], w, acc => pure (w, acc)
  | t :: rest, w, acc => do
    let w1 ← emit ff (.DataSet (.PolyData (.Cells .Tags))) (topoTag t) w
    let c := topoCells t
    let w2 ← emit ff (.DataSet (.PolyData (.Cells .Sizes)))
      (" " ++ toString c.num_cells ++ " " ++ toString c.vertices.length ++ "\n") w1
    let w3 ← mapTag (fun e => .DataSet (.PolyData (.Cells (.Data (ioKindOf e)))))
      (writeU32Vec ff c.vertices w2)
    writeTopo ff rest w3 (acc + c.num_cells)

/-- Embeds write_vtk_impl (src/writer.rs line 281) for the text sink.
Note: the source tags a failure of the title line with Header Version as
well (src/writer.rs line 287), although the taxonomy declares a separate
Title part.  WErr.panicked models the StructuredGrid dimension assertion
and the RectilinearGrid cell-count subtraction underflow. -/
def writeVtkImpl (ff : Nat → Bool) (vtk : Vtk) (w : WS) : WRes := do
  let w1 ← emit ff (.Header .Version)
    ("# vtk DataFile Version " ++ versionShow vtk.version ++ "\n") w
  let w2 ← emit ff (.Header .Version) (vtk.title ++ "\n") w1
  let w3 ← emit ff (.Header .FileType) ("ASCII\n\n") w2
  let w4 ←
    match vtk.data with
    | .Field name data_array => do
      let w5 ← emit ff (.DataSet .FieldDataHeader)
        ("FIELD " ++ name ++ " " ++ toString data_array.length ++ "\n") w3
      writeFieldArrays ff (.DataSet (.FieldArray .Header))
        (fun k => .DataSet (.FieldArray (.Data k))) data_array w5
    | .PolyData points topo data => do
      let w5 ← emit ff (.DataSet (.PolyData .Tags)) ("DATASET POLYDATA\n") w3
      let w6 ← emit ff (.DataSet (.PolyData (.Points .Header)))
        ("POINTS " ++ toString (points.len / 3) ++ " "
          ++ dataTypeStr points.kind ++ "\n") w5
      let w7 ← mapTag (fun e => .DataSet (.PolyData (.Points (.Data (ioKindOf e)))))
        (writeBuf ff points w6)
      let w8 ← emit ff Error.NewLine ("\n") w7
      let r ← writeTopo ff topo w8 0
      writeAttrib ff data (points.len / 3) r.2 r.1
    | .UnstructuredGrid points cells cell_types data => do
      let w5 ← emit ff (.DataSet (.UnstructuredGrid .Tags))
        ("DATASET UNSTRUCTURED_GRID\n") w3
      let w6 ← emit ff (.DataSet (.UnstructuredGrid (.Points .Header)))
        ("POINTS " ++ toString (points.len / 3) ++ " "
          ++ dataTypeStr points.kind ++ "\n") w5
      let w7 ← mapTag
        (fun e => .DataSet (.UnstructuredGrid (.Points (.Data (ioKindOf e)))))
        (writeBuf ff points w6)
      let w8 ← emit ff (.DataSet (.UnstructuredGrid (.Cells .Header)))
        ("\nCELLS " ++ toString cells.num_cells ++ " "
          ++ toString cells.vertices.length ++ "\n") w7
      let w9 ← mapTag
        (fun e => .DataSet (.UnstructuredGrid (.Cells (.Data (ioKindOf e)))))
        (writeU32Vec ff cells.vertices w8)
      let w10 ← emit ff (.DataSet (.UnstructuredGrid (.CellTypes .Header)))
        ("\nCELL_TYPES " ++ toString cell_types.length ++ "\n") w9
      let w11 ← writeCellTypes ff cell_types w10
      writeAttrib ff data (points.len / 3) cells.num_cells w11
    | .ImageData extent origin spacing data => do
      let w5 ← emit ff (.DataSet (.StructuredPoints .Tags))
        ("DATASET STRUCTURED_POINTS\n") w3
      let d := extent.intoDims
      let w6 ← emit ff (.DataSet (.StructuredPoints .Dimensions))
        ("DIMENSIONS " ++ toString d.1 ++ " " ++ toString d.2.1 ++ " "
          ++ toString d.2.2 ++ "\n") w5
      let w7 ← emit ff (.DataSet (.StructuredPoints .Origin))
        ("ORIGIN " ++ toString origin.1 ++ " " ++ toString origin.2.1 ++ " "
          ++ toString origin.2.2 ++ "\n") w6
      let w8 ← emit ff (.DataSet (.StructuredPoints (.Spacing .Tags)))
        (if vtk.version.major < 2 then "ASPECT_RATIO" else "SPACING") w7
      let w9 ← emit ff (.DataSet (.StructuredPoints (.Spacing .Sizes)))
        (" " ++ toString spacing.1 ++ " " ++ toString spacing.2.1 ++ " "
          ++ toString spacing.2.2 ++ "\n") w8
      writeAttrib ff data (d.1 * d.2.1 * d.2.2).toNat 0 w9
    | .StructuredGrid extent points data => do
      let w5 ← emit ff (.DataSet (.StructuredGrid .Tags))
        ("DATASET STRUCTURED_GRID\n") w3
      let d := extent.intoDims
      let w6 ← emit ff (.DataSet (.StructuredGrid .Dimensions))
        ("DIMENSIONS " ++ toString d.1 ++ " " ++ toString d.2.1 ++ " "
          ++ toString d.2.2 ++ "\n") w5
      let w7 ← emit ff (.DataSet (.StructuredGrid (.Points .Header)))
        ("POINTS " ++ toString (points.len / 3) ++ " "
          ++ dataTypeStr points.kind ++ "\n") w6
      let w8 ← mapTag
        (fun e => .DataSet (.StructuredGrid (.Points (.Data (ioKindOf e)))))
        (writeBuf ff points w7)
      if (d.1 * d.2.1 * d.2.2).toNat = points.len / 3 then
        writeAttrib ff data (points.len / 3) 1 w8
      else .error .panicked
    | .RectilinearGrid extent x_coords y_coords z_coords data => do
      let w5 ← emit ff (.DataSet (.RectilinearGrid .Tags))
        ("DATASET RECTILINEAR_GRID\n") w3
      let d := extent.intoDims
      let w6 ← emit ff (.DataSet (.RectilinearGrid .Dimensions))
        ("DIMENSIONS " ++ toString d.1 ++ " " ++ toString d.2.1 ++ " "
          ++ toString d.2.2 ++ "\n") w5
      let w7 ← emit ff (.DataSet (.RectilinearGrid (.XCoordinates .Header)))
        ("X_COORDINATES " ++ toString x_coords.len ++ " "
          ++ dataTypeStr x_coords.kind ++ "\n") w6
      let w8 ← mapTag
        (fun e => .DataSet (.RectilinearGrid (.XCoordinates (.Data (ioKindOf e)))))
        (writeBuf ff x_coords w7)
      let w9 ← emit ff (.DataSet (.RectilinearGrid (.YCoordinates .Header)))
        ("Y_COORDINATES " ++ toString y_coords.len ++ " "
          ++ dataTypeStr y_coords.kind ++ "\n") w8
      let w10 ← mapTag
        (fun e => .DataSet (.RectilinearGrid (.YCoordinates (.Data (ioKindOf e)))))
        (writeBuf ff y_coords w9)
      let w11 ← emit ff (.DataSet (.RectilinearGrid (.ZCoordinates .Header)))
        ("Z_COORDINATES " ++ toString z_coords.len ++ " "
          ++ dataTypeStr z_coords.kind ++ "\n") w10
      let w12 ← mapTag
        (fun e => .DataSet (.RectilinearGrid (.ZCoordinates (.Data (ioKindOf e)))))
        (writeBuf ff z_coords w11)
      if x_coords.len = 0 ∨ y_coords.len = 0 ∨ z_coords.len = 0 then
        .error .panicked
      else
        writeAttrib ff data (x_coords.len * y_coords.len * z_coords.len)
          ((x_coords.len - 1) * (y_coords.len - 1) * (z_coords.len - 1)) w12
  emit ff Error.NewLine ("\n") w4

/-- Embeds WriteVtk::write_vtk for the text sink, starting from an empty
sink with a fault-free write_fmt. -/
def write_vtk (vtk : Vtk) : WRes := writeVtkImpl noFail vtk ⟨"", 0⟩

/-! ## Rendering functions used to state the output-shape claims -/

/-- The output of a successful write, if any. -/
def outOf : WRes → Option String
  | .ok w => some w.out
  | _ => none

/-- The text rendered by write_u32_vec: space-separated decimals and a
final newline. -/
def u32Line (xs : List Nat) : String := tokLine (xs.map toString) ++ "\n"

/-- Follows the amended claim C2: each topology group present in the
document, in the order the document lists it, renders as its tag keyword,
the cell count and the connectivity size, then the connectivity; groups
absent from the document contribute nothing. -/
def topoLines : List PolyDataTopology → String
  | [] => ""
  | t :: r =>
    topoTag t ++ " " ++ toString (topoCells t).num_cells ++ " "
      ++ toString (topoCells t).vertices.length ++ "\n"
      ++ u32Line (topoCells t).vertices ++ topoLines r

/-- Total cell count accumulated over the topology groups. -/
def topoCellSum : List PolyDataTopology → Nat
  | [] => 0
  | t :: r => (topoCells t).num_cells + topoCellSum r

/-- No field array has a zero component count (otherwise the tuple-count
division panics). -/
def fieldOk : List FieldArray → Bool
  | [] => true
  | f :: r => (f.num_comp != 0) && fieldOk r

def attribOk : Attribute → Bool
  | .Field fs => fieldOk fs
  | _ => true

def attribsOk : List (String × Attribute) → Bool
  | [] => true
  | (_, a) :: r => attribOk a && attribsOk r

/-- The text emitted for one field-array list. -/
def fieldArrayLines : List FieldArray → String
  | [] => ""
  | f :: r =>
    f.name ++ " " ++ toString f.num_comp ++ " "
      ++ toString (f.data.len / f.num_comp) ++ " " ++ dataTypeStr f.data.kind ++ "\n"
      ++ (bufShow f.data ++ "\n") ++ fieldArrayLines r

/-- The text emitted for one named attribute after its leading newline. -/
def attribBody (name : String) : Attribute → String
  | .Scalars num_comp lookup_table data =>
    "SCALARS " ++ name ++ " " ++ dataTypeStr data.kind ++ " "
      ++ toString num_comp ++ "\n"
      ++ ("LOOKUP_TABLE " ++ lookup_table.getD ("default") ++ "\n")
      ++ (bufShow data ++ "\n")
  | .ColorScalars num_comp data =>
    "COLOR_SCALARS " ++ name ++ " " ++ toString num_comp ++ "\n"
      ++ (bufShow data ++ "\n")
  | .LookupTable data =>
    "LOOKUP_TABLE " ++ name ++ " " ++ toString (data.len / 4) ++ "\n"
      ++ (bufShow data ++ "\n")
  | .Vectors data =>
    "VECTORS " ++ name ++ " " ++ dataTypeStr data.kind ++ "\n"
      ++ (bufShow data ++ "\n")
  | .Normals data =>
    "NORMALS " ++ name ++ " " ++ dataTypeStr data.kind ++ "\n"
      ++ (bufShow data ++ "\n")
  | .TextureCoordinates dim data =>
    "TEXTURE_COORDINATES " ++ name ++ " " ++ toString dim ++ " "
      ++ dataTypeStr data.kind ++ "\n"
      ++ (bufShow data ++ "\n")
  | .Tensors data =>
    "TENSORS " ++ name ++ " " ++ dataTypeStr data.kind ++ "\n"
      ++ (bufShow data ++ "\n")
  | .Field data_array =>
    "FIELD " ++ name ++ " " ++ toString data_array.length ++ "\n"
      ++ fieldArrayLines data_array

/-- The text emitted by write_attrib_data for a named attribute list. -/
def attribLines : List (String × Attribute) → String
  | [] => ""
  | (n, a) :: r => "\n" ++ attribBody n a ++ attribLines r

/-- Concrete PolyData document whose topology groups are listed as Lines
then Vertices, used to settle claim C2. -/
def bufC2 : IOBuffer := ⟨.f32, [0, 0, 0, 1, 0, 0]⟩

def vtkC2 : Vtk :=
  ⟨⟨2, 0⟩, "t",
    .PolyData bufC2 [.Lines ⟨1, [0, 1]⟩, .Vertices ⟨1, [0]⟩] ⟨[], []⟩⟩

/-- Concrete extent with dims 1, 1, 2, used by witnesses. -/
def extW : Extent := ⟨0, 0, 0, 0, 0, 1⟩

/-- Concrete six-element f32 buffer (two points), used by witnesses. -/
def bufW : IOBuffer := ⟨.f32, [0, 0, 0, 1, 0, 0]⟩

/-! ## Helper lemmas -/

theorem str_append_assoc (a b c : String) : a ++ b ++ c = a ++ (b ++ c) := by
  apply String.ext
  simp [String.data_append, List.append_assoc]

theorem str_append_empty (a : String) : a ++ "" = a := by
  apply String.ext
  simp [String.data_append, show ("" : String).data = [] from rfl]

theorem str_empty_append (a : String) : "" ++ a = a := by
  apply String.ext
  simp [String.data_append, show ("" : String).data = [] from rfl]

theorem emit_noFail (tag : Error) (s : String) (w : WS) :
    emit noFail tag s w = Except.ok ⟨w.out ++ s, w.ctr + 1⟩ := rfl

theorem bind_ok {α β : Type} (a : α) (f : α → Except WErr β) :
    (Except.ok a : Except WErr α) >>= f = f a := rfl

theorem bind_error {α β : Type} (e : WErr) (f : α → Except WErr β) :
    (Except.error e : Except WErr α) >>= f = Except.error e := rfl

theorem mapTag_ok (f : Error → Error) (w : WS) :
    mapTag f (Except.ok w) = Except.ok w := rfl

theorem writeBuf_noFail (b : IOBuffer) (w : WS) :
    writeBuf noFail b w = Except.ok ⟨w.out ++ (bufShow b ++ "\n"), w.ctr + 1⟩ := rfl

theorem iresMapW_contract (size : Nat) (f : Nat → Int) (bo : ByteOrd)
    (input : List Nat) :
    ((∃ rest v, iresMap f (from_binary_w size bo input) = IRes.Done rest v) ↔
      size ≤ input.length)
    ∧ (iresMap f (from_binary_w size bo input) = IRes.Incomplete size
        ∨ ∃ v, iresMap f (from_binary_w size bo input)
            = IRes.Done (input.drop size) v) := by
  by_cases h : input.length < size
  · constructor
    · simp [from_binary_w, h, iresMap]
    · simp [from_binary_w, h, iresMap]
  · constructor
    · simp [from_binary_w, h, iresMap]
      omega
    · right
      simp [from_binary_w, h, iresMap]

/-! ## Claim theorems -/

/-- Claim C1: for every scalar type among the ten supported types and every
byte order, from_binary succeeds if and only if the input holds at least
sizeof bytes; with fewer it returns the distinguished incomplete signal
(never the malformed one), and on success it consumes exactly sizeof bytes,
leaving the rest of the input unchanged. -/
theorem from_binary_contract (k : ScalarKind) (bo : ByteOrd) (input : List Nat) :
    ((∃ rest v, from_binary k bo input = IRes.Done rest v) ↔
      scalarSize k ≤ input.length)
    ∧ (from_binary k bo input = IRes.Incomplete (scalarSize k)
        ∨ ∃ v, from_binary k bo input
            = IRes.Done (input.drop (scalarSize k)) v) := by
  cases k with
  | u8 =>
    cases input with
    | nil => simp [from_binary, scalarSize]
    | cons b rest => simp [from_binary, scalarSize]
  | i8 =>
    cases input with
    | nil => simp [from_binary, scalarSize]
    | cons b rest => simp [from_binary, scalarSize]
  | u16 => exact iresMapW_contract 2 _ bo input
  | i16 => exact iresMapW_contract 2 _ bo input
  | u32 => exact iresMapW_contract 4 _ bo input
  | i32 => exact iresMapW_contract 4 _ bo input
  | u64 => exact iresMapW_contract 8 _ bo input
  | i64 => exact iresMapW_contract 8 _ bo input
  | f32 => exact iresMapW_contract 4 _ bo input
  | f64 => exact iresMapW_contract 8 _ bo input

/-- Claim C5: the i8 binary decode is the twos-complement bit
reinterpretation of the leading byte, never a range-checked conversion or
an error: byte 255 decodes to -1, and the bulk signed-byte binary decode
reinterprets each byte the same way. -/
theorem i8_binary_reinterpretation :
    (∀ (bo : ByteOrd) (b : Nat) (rest : List Nat),
      from_binary ScalarKind.i8 bo (b :: rest) = IRes.Done rest (toI8 b))
    ∧ (∀ bo : ByteOrd, from_binary ScalarKind.i8 bo [255] = IRes.Done [] (-1))
    ∧ parse_data_vec_i8_binary [255, 0, 128, 127] 4
        = IRes.Done [] [-1, 0, -128, 127] := by
  refine ⟨fun bo b rest => rfl, fun bo => by cases bo <;> decide, by decide⟩

/-- Claim C7: ASCII bulk decode of the input 3 32 32.0 4e3 with count 4
yields exactly 3, 32, 32 and 4000 with the whole input consumed, at both
the f32 and the f64 instantiation, and the real grammar accepts an
exponent with no decimal point. -/
theorem ascii_bulk_decode_concrete :
    parse_data_vec_f32_ascii 4 ("3 32 32.0 4e3".data) = some ([3, 32, 32, 4000], [])
    ∧ parse_data_vec_f64_ascii 4 ("3 32 32.0 4e3".data) = some ([3, 32, 32, 4000], [])
    ∧ real ("4e3".data) = some (4000, []) := by
  refine ⟨by decide, by decide, by decide⟩

/-- Claim C8: the writer maps a failure of the title line to the Version
header tag (src/writer.rs line 287), although the error taxonomy declares
a distinct Title part; so a title-line failure is not reported with a tag
identifying the title part.  The fault model makes exactly the second
write_fmt call, the title line, fail. -/
theorem title_failure_is_tagged_version (vtk : Vtk) :
    writeVtkImpl (fun n => n == 1) vtk ⟨"", 0⟩
      = Except.error (WErr.tagged (Error.Header Header.Version))
    ∧ Header.Title ≠ Header.Version := by
  exact ⟨rfl, by decide⟩

/-- Claim C10: writing a RectilinearGrid document whose x, y or z
coordinate buffer is empty panics on the cell-count subtraction instead of
returning a tagged error. -/
theorem rectilinear_empty_axis_panics (v : Version) (t : String) (e : Extent)
    (x y z : IOBuffer) (a : Attributes)
    (h : x.len = 0 ∨ y.len = 0 ∨ z.len = 0) :
    writeVtkImpl noFail ⟨v, t, DataSet.RectilinearGrid e x y z a⟩ ⟨"", 0⟩
      = Except.error WErr.panicked
    ∧ ∀ er : Error, WErr.panicked ≠ WErr.tagged er := by
  constructor
  · simp only [writeVtkImpl, emit_noFail, bind_ok, writeBuf_noFail, mapTag_ok]
    rw [if_pos h, bind_error]
  · intro er hcon
    cases hcon

/-- Witness for claim C10 at a concrete document with an empty x buffer. -/
theorem rectilinear_empty_axis_panics_witness :
    (IOBuffer.len ⟨ScalarKind.f32, []⟩ = 0 ∨ IOBuffer.len ⟨ScalarKind.f32, [1]⟩ = 0
      ∨ IOBuffer.len ⟨ScalarKind.f32, [1]⟩ = 0)
    ∧ (writeVtkImpl noFail
        ⟨⟨2, 0⟩, "t", DataSet.RectilinearGrid ⟨0, 0, 0, 0, 0, 0⟩
          ⟨ScalarKind.f32, []⟩ ⟨ScalarKind.f32, [1]⟩ ⟨ScalarKind.f32, [1]⟩ ⟨[], []⟩⟩
        ⟨"", 0⟩ = Except.error WErr.panicked
      ∧ ∀ er : Error, WErr.panicked ≠ WErr.tagged er) :=
  ⟨Or.inl rfl,
    rectilinear_empty_axis_panics ⟨2, 0⟩ "t" ⟨0, 0, 0, 0, 0, 0⟩
      ⟨ScalarKind.f32, []⟩ ⟨ScalarKind.f32, [1]⟩ ⟨ScalarKind.f32, [1]⟩ ⟨[], []⟩
      (Or.inl rfl)⟩

/-- Claim C2 counterexample: the writer emits the topology groups in the
order the document lists them, not in the fixed Vertices, Lines, Polygons,
TriangleStrips order: a document listing Lines before Vertices produces
the LINES block before the VERTICES block, not the claimed reordering. -/
theorem polydata_topology_order_counterexample :
    outOf (writeVtkImpl noFail vtkC2 ⟨"", 0⟩)
      = some ("# vtk DataFile Version 2.0\nt\nASCII\n\nDATASET POLYDATA\nPOINTS 2 float\n0 0 0 1 0 0\n\nLINES 1 2\n0 1\nVERTICES 1 1\n0\n\nPOINT_DATA 2\n\nCELL_DATA 2\n\n")
    ∧ outOf (writeVtkImpl noFail vtkC2 ⟨"", 0⟩)
      ≠ some ("# vtk DataFile Version 2.0\nt\nASCII\n\nDATASET POLYDATA\nPOINTS 2 float\n0 0 0 1 0 0\n\nVERTICES 1 1\n0\nLINES 1 2\n0 1\n\nPOINT_DATA 2\n\nCELL_DATA 2\n\n") := by
  constructor
  · decide
  · decide

/-! ## Run lemmas for the fault-free text sink -/

theorem writeU32VecAux_run (xs : List Nat) (w : WS) :
    ∃ c, writeU32VecAux noFail xs w
      = Except.ok ⟨w.out ++ tokLine (xs.map toString), c⟩ := by
  induction xs generalizing w with
  | nil =>
    exact ⟨w.ctr, by simp [writeU32VecAux, tokLine, str_append_empty, pure, Except.pure]⟩
  | cons x t ih =>
    cases t with
    | nil =>
      exact ⟨w.ctr + 1, by simp [writeU32VecAux, emit_noFail, tokLine]⟩
    | cons y r =>
      obtain ⟨c, hc⟩ := ih ⟨w.out ++ toString x ++ " ", w.ctr + 1 + 1⟩
      refine ⟨c, ?_⟩
      simp only [writeU32VecAux, emit_noFail, bind_ok]
      rw [hc]
      simp [tokLine, str_append_assoc]

theorem writeU32Vec_run (xs : List Nat) (w : WS) :
    ∃ c, writeU32Vec noFail xs w = Except.ok ⟨w.out ++ u32Line xs, c⟩ := by
  obtain ⟨c, hc⟩ := writeU32VecAux_run xs w
  refine ⟨c + 1, ?_⟩
  simp only [writeU32Vec, hc, bind_ok, emit_noFail, u32Line]
  rw [str_append_assoc]

theorem writeFieldArrays_run (hTag : Error) (dTag : Option IOErrorKind → Error)
    (fs : List FieldArray) (w : WS) (h : fieldOk fs = true) :
    ∃ c, writeFieldArrays noFail hTag dTag fs w
      = Except.ok ⟨w.out ++ fieldArrayLines fs, c⟩ := by
  induction fs generalizing w with
  | nil =>
    exact ⟨w.ctr, by simp [writeFieldArrays, fieldArrayLines, str_append_empty,
      pure, Except.pure]⟩
  | cons f rest ih =>
    rw [fieldOk] at h
    simp only [Bool.and_eq_true, bne_iff_ne, ne_eq] at h
    obtain ⟨hf, hrest⟩ := h
    obtain ⟨c, hc⟩ := ih ⟨w.out ++ (f.name ++ " " ++ toString f.num_comp ++ " "
      ++ toString (f.data.len / f.num_comp) ++ " " ++ dataTypeStr f.data.kind ++ "\n")
      ++ (bufShow f.data ++ "\n"), w.ctr + 1 + 1⟩ hrest
    refine ⟨c, ?_⟩
    simp only [writeFieldArrays]
    rw [if_neg hf]
    simp only [emit_noFail, bind_ok, writeBuf_noFail, mapTag_ok]
    rw [hc]
    simp [fieldArrayLines, str_append_assoc]

theorem writeOneAttrib_run (name : String) (a : Attribute) (w : WS)
    (h : attribOk a = true) :
    ∃ c, writeOneAttrib noFail name a w
      = Except.ok ⟨w.out ++ attribBody name a, c⟩ := by
  cases a with
  | Scalars nc lt data =>
    refine ⟨w.ctr + 1 + 1 + 1, ?_⟩
    simp only [writeOneAttrib, emit_noFail, bind_ok, writeBuf_noFail, mapTag_ok,
      attribBody]
    simp [str_append_assoc]
  | ColorScalars nc data =>
    refine ⟨w.ctr + 1 + 1, ?_⟩
    simp only [writeOneAttrib, emit_noFail, bind_ok, writeBuf_noFail, mapTag_ok,
      attribBody]
    simp [str_append_assoc]
  | LookupTable data =>
    refine ⟨w.ctr + 1 + 1, ?_⟩
    simp only [writeOneAttrib, emit_noFail, bind_ok, writeBuf_noFail, mapTag_ok,
      attribBody]
    simp [str_append_assoc]
  | Vectors data =>
    refine ⟨w.ctr + 1 + 1, ?_⟩
    simp only [writeOneAttrib, emit_noFail, bind_ok, writeBuf_noFail, mapTag_ok,
      attribBody]
    simp [str_append_assoc]
  | Normals data =>
    refine ⟨w.ctr + 1 + 1, ?_⟩
    simp only [writeOneAttrib, emit_noFail, bind_ok, writeBuf_noFail, mapTag_ok,
      attribBody]
    simp [str_append_assoc]
  | TextureCoordinates dim data =>
    refine ⟨w.ctr + 1 + 1, ?_⟩
    simp only [writeOneAttrib, emit_noFail, bind_ok, writeBuf_noFail, mapTag_ok,
      attribBody]
    simp [str_append_assoc]
  | Tensors data =>
    refine ⟨w.ctr + 1 + 1, ?_⟩
    simp only [writeOneAttrib, emit_noFail, bind_ok, writeBuf_noFail, mapTag_ok,
      attribBody]
    simp [str_append_assoc]
  | Field fs =>
    rw [attribOk] at h
    obtain ⟨c, hc⟩ := writeFieldArrays_run (.Attribute (.FieldArray .Header))
      (fun k => .Attribute (.FieldArray (.Data k))) fs
      ⟨w.out ++ ("FIELD " ++ name ++ " " ++ toString fs.length ++ "\n"), w.ctr + 1⟩ h
    refine ⟨c, ?_⟩
    simp only [writeOneAttrib, emit_noFail, bind_ok]
    rw [hc]
    simp [attribBody, str_append_assoc]

theorem writeAttribData_run (items : List (String × Attribute)) (w : WS)
    (h : attribsOk items = true) :
    ∃ c, writeAttribData noFail items w
      = Except.ok ⟨w.out ++ attribLines items, c⟩ := by
  induction items generalizing w with
  | nil =>
    exact ⟨w.ctr, by simp [writeAttribData, attribLines, str_append_empty,
      pure, Except.pure]⟩
  | cons p rest ih =>
    obtain ⟨name, a⟩ := p
    rw [attribsOk] at h
    simp only [Bool.and_eq_true] at h
    obtain ⟨ha, hrest⟩ := h
    obtain ⟨c1, h1⟩ := writeOneAttrib_run name a ⟨w.out ++ "\n", w.ctr + 1⟩ ha
    obtain ⟨c2, h2⟩ := ih ⟨w.out ++ "\n" ++ attribBody name a, c1⟩ hrest
    refine ⟨c2, ?_⟩
    simp only [writeAttribData, emit_noFail, bind_ok]
    rw [h1]
    simp only [bind_ok]
    rw [h2]
    simp [attribLines, str_append_assoc]

theorem writeAttrib_run (a : Attributes) (np nc : Nat) (w : WS)
    (hp : attribsOk a.point = true) (hcl : attribsOk a.cell = true) :
    ∃ c, writeAttrib noFail a np nc w = Except.ok
      ⟨w.out ++ ("\nPOINT_DATA " ++ toString np ++ "\n") ++ attribLines a.point
        ++ ("\nCELL_DATA " ++ toString nc ++ "\n") ++ attribLines a.cell, c⟩ := by
  obtain ⟨c1, h1⟩ := writeAttribData_run a.point
    ⟨w.out ++ ("\nPOINT_DATA " ++ toString np ++ "\n"), w.ctr + 1⟩ hp
  obtain ⟨c2, h2⟩ := writeAttribData_run a.cell
    ⟨w.out ++ ("\nPOINT_DATA " ++ toString np ++ "\n") ++ attribLines a.point
      ++ ("\nCELL_DATA " ++ toString nc ++ "\n"), c1 + 1⟩ hcl
  refine ⟨c2, ?_⟩
  simp only [writeAttrib, emit_noFail, bind_ok]
  rw [h1]
  simp only [bind_ok, emit_noFail]
  rw [h2]

theorem writeAttrib_then_newline (a : Attributes) (np nc : Nat) (w : WS)
    (hp : attribsOk a.point = true) (hcl : attribsOk a.cell = true) :
    ∃ c, (writeAttrib noFail a np nc w >>= fun w4 => emit noFail Error.NewLine ("\n") w4)
      = Except.ok
        ⟨w.out ++ ("\nPOINT_DATA " ++ toString np ++ "\n") ++ attribLines a.point
          ++ ("\nCELL_DATA " ++ toString nc ++ "\n") ++ attribLines a.cell ++ "\n", c⟩ := by
  obtain ⟨c, hc⟩ := writeAttrib_run a np nc w hp hcl
  refine ⟨c + 1, ?_⟩
  rw [hc]
  simp only [bind_ok, emit_noFail]

/-- Claim C2 (amended): the writer emits the topology groups present in the
document in the order the document lists them (not in a fixed canonical
order), each as a header line with the tag, the cell count and the
connectivity size followed by the connectivity, and groups absent from the
document produce no output at all. -/
theorem polydata_topology_caller_order (topo : List PolyDataTopology) (w : WS)
    (acc : Nat) :
    ∃ w1, writeTopo noFail topo w acc = Except.ok (w1, acc + topoCellSum topo)
      ∧ w1.out = w.out ++ topoLines topo := by
  induction topo generalizing w acc with
  | nil =>
    exact ⟨w, by simp [writeTopo, topoCellSum, pure, Except.pure],
      by simp [topoLines, str_append_empty]⟩
  | cons t rest ih =>
    obtain ⟨c, hu⟩ := writeU32Vec_run (topoCells t).vertices
      ⟨w.out ++ topoTag t ++ (" " ++ toString (topoCells t).num_cells ++ " "
        ++ toString (topoCells t).vertices.length ++ "\n"), w.ctr + 1 + 1⟩
    obtain ⟨w1, h1, h2⟩ := ih
      ⟨w.out ++ topoTag t ++ (" " ++ toString (topoCells t).num_cells ++ " "
        ++ toString (topoCells t).vertices.length ++ "\n")
        ++ u32Line (topoCells t).vertices, c⟩
      (acc + (topoCells t).num_cells)
    refine ⟨w1, ?_, ?_⟩
    · simp only [writeTopo, emit_noFail, bind_ok]
      rw [hu]
      simp only [mapTag_ok, bind_ok]
      rw [h1]
      simp [topoCellSum, Nat.add_assoc]
    · rw [h2]
      simp [topoLines, str_append_assoc]

/-- Claim C6: every Scalars attribute writes a LOOKUP_TABLE name line
immediately after the SCALARS header line, and when no explicit
lookup-table name is given the emitted line is exactly LOOKUP_TABLE
default. -/
theorem scalars_lookup_table_line (name : String) (nc : Nat) (lt : Option String)
    (buf : IOBuffer) (rest : List (String × Attribute)) (w : WS) :
    writeAttribData noFail ((name, Attribute.Scalars nc lt buf) :: rest) w
      = writeAttribData noFail rest
          ⟨w.out ++ "\n"
            ++ ("SCALARS " ++ name ++ " " ++ dataTypeStr buf.kind ++ " "
              ++ toString nc ++ "\n")
            ++ ("LOOKUP_TABLE " ++ lt.getD ("default") ++ "\n")
            ++ (bufShow buf ++ "\n"),
            w.ctr + 1 + 1 + 1 + 1⟩
    ∧ "LOOKUP_TABLE " ++ (none : Option String).getD ("default") ++ "\n"
        = "LOOKUP_TABLE default\n" := by
  constructor
  · simp only [writeAttribData, writeOneAttrib, emit_noFail, bind_ok,
      writeBuf_noFail, mapTag_ok]
  · decide

/-- Claim C3: for every StructuredGrid document (with the dimension
assertion satisfied and well-formed attributes), the writer passes the
constant 1 as the cell count to the attribute block, so the emitted
CELL_DATA header line is always CELL_DATA 1, independent of the cell count
implied by the dimensions. -/
theorem structured_grid_cell_data_one (v : Version) (t : String) (e : Extent)
    (p : IOBuffer) (a : Attributes)
    (hdim : ((e.intoDims).1 * (e.intoDims).2.1 * (e.intoDims).2.2).toNat = p.len / 3)
    (hp : attribsOk a.point = true) (hcl : attribsOk a.cell = true) :
    (∃ c, writeVtkImpl noFail ⟨v, t, DataSet.StructuredGrid e p a⟩ ⟨"", 0⟩
      = Except.ok
        ⟨"# vtk DataFile Version " ++ versionShow v ++ "\n" ++ (t ++ "\n")
          ++ "ASCII\n\n" ++ "DATASET STRUCTURED_GRID\n"
          ++ ("DIMENSIONS " ++ toString (e.intoDims).1 ++ " "
            ++ toString (e.intoDims).2.1 ++ " " ++ toString (e.intoDims).2.2 ++ "\n")
          ++ ("POINTS " ++ toString (p.len / 3) ++ " " ++ dataTypeStr p.kind ++ "\n")
          ++ (bufShow p ++ "\n")
          ++ ("\nPOINT_DATA " ++ toString (p.len / 3) ++ "\n") ++ attribLines a.point
          ++ ("\nCELL_DATA " ++ toString 1 ++ "\n") ++ attribLines a.cell ++ "\n", c⟩)
    ∧ "\nCELL_DATA " ++ toString 1 ++ "\n" = "\nCELL_DATA 1\n" := by
  constructor
  · obtain ⟨c, hc⟩ := writeAttrib_then_newline a (p.len / 3) 1
      ⟨"" ++ ("# vtk DataFile Version " ++ versionShow v ++ "\n") ++ (t ++ "\n")
        ++ "ASCII\n\n" ++ "DATASET STRUCTURED_GRID\n"
        ++ ("DIMENSIONS " ++ toString (e.intoDims).1 ++ " "
          ++ toString (e.intoDims).2.1 ++ " " ++ toString (e.intoDims).2.2 ++ "\n")
        ++ ("POINTS " ++ toString (p.len / 3) ++ " " ++ dataTypeStr p.kind ++ "\n")
        ++ (bufShow p ++ "\n"), 0 + 1 + 1 + 1 + 1 + 1 + 1 + 1⟩ hp hcl
    simp only [emit_noFail] at hc
    refine ⟨c, ?_⟩
    simp only [writeVtkImpl, emit_noFail, bind_ok, writeBuf_noFail, mapTag_ok]
    rw [if_pos hdim]
    rw [hc]
    simp [str_empty_append, str_append_assoc]
  · decide

/-- Witness for claim C3 at a concrete StructuredGrid document. -/
theorem structured_grid_cell_data_one_witness :
    (((extW.intoDims).1 * (extW.intoDims).2.1 * (extW.intoDims).2.2).toNat
        = bufW.len / 3
      ∧ attribsOk (Attributes.mk [] []).point = true
      ∧ attribsOk (Attributes.mk [] []).cell = true)
    ∧ ((∃ c, writeVtkImpl noFail
        ⟨⟨2, 0⟩, "t", DataSet.StructuredGrid extW bufW ⟨[], []⟩⟩ ⟨"", 0⟩
      = Except.ok
        ⟨"# vtk DataFile Version " ++ versionShow ⟨2, 0⟩ ++ "\n" ++ ("t" ++ "\n")
          ++ "ASCII\n\n" ++ "DATASET STRUCTURED_GRID\n"
          ++ ("DIMENSIONS " ++ toString (extW.intoDims).1 ++ " "
            ++ toString (extW.intoDims).2.1 ++ " " ++ toString (extW.intoDims).2.2 ++ "\n")
          ++ ("POINTS " ++ toString (bufW.len / 3) ++ " " ++ dataTypeStr bufW.kind ++ "\n")
          ++ (bufShow bufW ++ "\n")
          ++ ("\nPOINT_DATA " ++ toString (bufW.len / 3) ++ "\n")
          ++ attribLines (Attributes.mk [] []).point
          ++ ("\nCELL_DATA " ++ toString 1 ++ "\n")
          ++ attribLines (Attributes.mk [] []).cell ++ "\n", c⟩)
      ∧ "\nCELL_DATA " ++ toString 1 ++ "\n" = "\nCELL_DATA 1\n") :=
  ⟨⟨by decide, rfl, rfl⟩,
    structured_grid_cell_data_one ⟨2, 0⟩ "t" extW bufW ⟨[], []⟩ (by decide) rfl rfl⟩

/-- Claim C4: for every ImageData document, the spacing line is tagged
ASPECT_RATIO when the major version is 1 and SPACING when it is 2, and two
documents differing only in that major version produce outputs identical
except for this one keyword and the version line itself. -/
theorem image_data_spacing_keyword (mi : Nat) (t : String) (e : Extent)
    (og sp : ℚ × ℚ × ℚ) (a : Attributes)
    (hp : attribsOk a.point = true) (hcl : attribsOk a.cell = true) :
    ∃ mid tail c1 c2,
      writeVtkImpl noFail ⟨⟨1, mi⟩, t, DataSet.ImageData e og sp a⟩ ⟨"", 0⟩
        = Except.ok ⟨"# vtk DataFile Version " ++ versionShow ⟨1, mi⟩ ++ "\n" ++ mid
            ++ "ASPECT_RATIO" ++ tail, c1⟩
      ∧ writeVtkImpl noFail ⟨⟨2, mi⟩, t, DataSet.ImageData e og sp a⟩ ⟨"", 0⟩
        = Except.ok ⟨"# vtk DataFile Version " ++ versionShow ⟨2, mi⟩ ++ "\n" ++ mid
            ++ "SPACING" ++ tail, c2⟩ := by
  obtain ⟨c1, h1⟩ := writeAttrib_then_newline a
    (((e.intoDims).1 * (e.intoDims).2.1 * (e.intoDims).2.2).toNat) 0
    ⟨"" ++ ("# vtk DataFile Version " ++ versionShow ⟨1, mi⟩ ++ "\n") ++ (t ++ "\n")
      ++ "ASCII\n\n" ++ "DATASET STRUCTURED_POINTS\n"
      ++ ("DIMENSIONS " ++ toString (e.intoDims).1 ++ " "
        ++ toString (e.intoDims).2.1 ++ " " ++ toString (e.intoDims).2.2 ++ "\n")
      ++ ("ORIGIN " ++ toString og.1 ++ " " ++ toString og.2.1 ++ " "
        ++ toString og.2.2 ++ "\n")
      ++ "ASPECT_RATIO"
      ++ (" " ++ toString sp.1 ++ " " ++ toString sp.2.1 ++ " "
        ++ toString sp.2.2 ++ "\n"), 0 + 1 + 1 + 1 + 1 + 1 + 1 + 1 + 1⟩ hp hcl
  obtain ⟨c2, h2⟩ := writeAttrib_then_newline a
    (((e.intoDims).1 * (e.intoDims).2.1 * (e.intoDims).2.2).toNat) 0
    ⟨"" ++ ("# vtk DataFile Version " ++ versionShow ⟨2, mi⟩ ++ "\n") ++ (t ++ "\n")
      ++ "ASCII\n\n" ++ "DATASET STRUCTURED_POINTS\n"
      ++ ("DIMENSIONS " ++ toString (e.intoDims).1 ++ " "
        ++ toString (e.intoDims).2.1 ++ " " ++ toString (e.intoDims).2.2 ++ "\n")
      ++ ("ORIGIN " ++ toString og.1 ++ " " ++ toString og.2.1 ++ " "
        ++ toString og.2.2 ++ "\n")
      ++ "SPACING"
      ++ (" " ++ toString sp.1 ++ " " ++ toString sp.2.1 ++ " "
        ++ toString sp.2.2 ++ "\n"), 0 + 1 + 1 + 1 + 1 + 1 + 1 + 1 + 1⟩ hp hcl
  simp only [emit_noFail] at h1 h2
  refine ⟨(t ++ "\n") ++ "ASCII\n\n" ++ "DATASET STRUCTURED_POINTS\n"
      ++ ("DIMENSIONS " ++ toString (e.intoDims).1 ++ " "
        ++ toString (e.intoDims).2.1 ++ " " ++ toString (e.intoDims).2.2 ++ "\n")
      ++ ("ORIGIN " ++ toString og.1 ++ " " ++ toString og.2.1 ++ " "
        ++ toString og.2.2 ++ "\n"),
    (" " ++ toString sp.1 ++ " " ++ toString sp.2.1 ++ " "
      ++ toString sp.2.2 ++ "\n")
      ++ ("\nPOINT_DATA "
        ++ toString (((e.intoDims).1 * (e.intoDims).2.1 * (e.intoDims).2.2).toNat)
        ++ "\n")
      ++ attribLines a.point ++ ("\nCELL_DATA " ++ toString 0 ++ "\n")
      ++ attribLines a.cell ++ "\n", c1, c2, ?_, ?_⟩
  · simp only [writeVtkImpl, emit_noFail, bind_ok, writeBuf_noFail, mapTag_ok]
    rw [if_pos (show (1 : Nat) < 2 by decide)]
    rw [h1]
    simp [str_empty_append, str_append_assoc]
  · simp only [writeVtkImpl, emit_noFail, bind_ok, writeBuf_noFail, mapTag_ok]
    rw [if_neg (show ¬ ((2 : Nat) < 2) by decide)]
    rw [h2]
    simp [str_empty_append, str_append_assoc]

/-- Witness for claim C4 at a concrete ImageData document. -/
theorem image_data_spacing_keyword_witness :
    (attribsOk (Attributes.mk [] []).point = true
      ∧ attribsOk (Attributes.mk [] []).cell = true)
    ∧ (∃ mid tail c1 c2,
      writeVtkImpl noFail
          ⟨⟨1, 0⟩, "t", DataSet.ImageData extW (0, 0, 0) (1, 1, 1) ⟨[], []⟩⟩ ⟨"", 0⟩
        = Except.ok ⟨"# vtk DataFile Version " ++ versionShow ⟨1, 0⟩ ++ "\n" ++ mid
            ++ "ASPECT_RATIO" ++ tail, c1⟩
      ∧ writeVtkImpl noFail
          ⟨⟨2, 0⟩, "t", DataSet.ImageData extW (0, 0, 0) (1, 1, 1) ⟨[], []⟩⟩ ⟨"", 0⟩
        = Except.ok ⟨"# vtk DataFile Version " ++ versionShow ⟨2, 0⟩ ++ "\n" ++ mid
            ++ "SPACING" ++ tail, c2⟩) :=
  ⟨⟨rfl, rfl⟩,
    image_data_spacing_keyword 0 "t" extW (0, 0, 0) (1, 1, 1) ⟨[], []⟩ rfl rfl⟩

/-- Claim C9: for every RectilinearGrid document with non-empty coordinate
buffers and well-formed attributes, the point count emitted in POINT_DATA
is the product of the three coordinate buffer lengths and the cell count
emitted in CELL_DATA is the product over the axes of the length minus
one. -/
theorem rectilinear_grid_counts (v : Version) (t : String) (e : Extent)
    (x y z : IOBuffer) (a : Attributes)
    (hx : x.len ≠ 0) (hy : y.len ≠ 0) (hz : z.len ≠ 0)
    (hp : attribsOk a.point = true) (hcl : attribsOk a.cell = true) :
    ∃ c, writeVtkImpl noFail ⟨v, t, DataSet.RectilinearGrid e x y z a⟩ ⟨"", 0⟩
      = Except.ok
        ⟨"# vtk DataFile Version " ++ versionShow v ++ "\n" ++ (t ++ "\n")
          ++ "ASCII\n\n" ++ "DATASET RECTILINEAR_GRID\n"
          ++ ("DIMENSIONS " ++ toString (e.intoDims).1 ++ " "
            ++ toString (e.intoDims).2.1 ++ " " ++ toString (e.intoDims).2.2 ++ "\n")
          ++ ("X_COORDINATES " ++ toString x.len ++ " " ++ dataTypeStr x.kind ++ "\n")
          ++ (bufShow x ++ "\n")
          ++ ("Y_COORDINATES " ++ toString y.len ++ " " ++ dataTypeStr y.kind ++ "\n")
          ++ (bufShow y ++ "\n")
          ++ ("Z_COORDINATES " ++ toString z.len ++ " " ++ dataTypeStr z.kind ++ "\n")
          ++ (bufShow z ++ "\n")
          ++ ("\nPOINT_DATA " ++ toString (x.len * y.len * z.len) ++ "\n")
          ++ attribLines a.point
          ++ ("\nCELL_DATA " ++ toString ((x.len - 1) * (y.len - 1) * (z.len - 1))
            ++ "\n")
          ++ attribLines a.cell ++ "\n", c⟩ := by
  obtain ⟨c, hc⟩ := writeAttrib_then_newline a (x.len * y.len * z.len)
    ((x.len - 1) * (y.len - 1) * (z.len - 1))
    ⟨"" ++ ("# vtk DataFile Version " ++ versionShow v ++ "\n") ++ (t ++ "\n")
      ++ "ASCII\n\n" ++ "DATASET RECTILINEAR_GRID\n"
      ++ ("DIMENSIONS " ++ toString (e.intoDims).1 ++ " "
        ++ toString (e.intoDims).2.1 ++ " " ++ toString (e.intoDims).2.2 ++ "\n")
      ++ ("X_COORDINATES " ++ toString x.len ++ " " ++ dataTypeStr x.kind ++ "\n")
      ++ (bufShow x ++ "\n")
      ++ ("Y_COORDINATES " ++ toString y.len ++ " " ++ dataTypeStr y.kind ++ "\n")
      ++ (bufShow y ++ "\n")
      ++ ("Z_COORDINATES " ++ toString z.len ++ " " ++ dataTypeStr z.kind ++ "\n")
      ++ (bufShow z ++ "\n"),
      0 + 1 + 1 + 1 + 1 + 1 + 1 + 1 + 1 + 1 + 1 + 1⟩ hp hcl
  simp only [emit_noFail] at hc
  refine ⟨c, ?_⟩
  simp only [writeVtkImpl, emit_noFail, bind_ok, writeBuf_noFail, mapTag_ok]
  rw [if_neg (show ¬ (x.len = 0 ∨ y.len = 0 ∨ z.len = 0) by simp [hx, hy, hz])]
  rw [hc]
  simp [str_empty_append, str_append_assoc]

/-- Witness for claim C9 at a concrete RectilinearGrid document. -/
theorem rectilinear_grid_counts_witness :
    ((IOBuffer.len ⟨ScalarKind.f32, [0, 1]⟩ ≠ 0
        ∧ IOBuffer.len ⟨ScalarKind.f32, [0]⟩ ≠ 0
        ∧ IOBuffer.len ⟨ScalarKind.f32, [0, 1, 2]⟩ ≠ 0)
      ∧ attribsOk (Attributes.mk [] []).point = true
      ∧ attribsOk (Attributes.mk [] []).cell = true)
    ∧ ∃ c, writeVtkImpl noFail
        ⟨⟨2, 0⟩, "t", DataSet.RectilinearGrid extW ⟨ScalarKind.f32, [0, 1]⟩
          ⟨ScalarKind.f32, [0]⟩ ⟨ScalarKind.f32, [0, 1, 2]⟩ ⟨[], []⟩⟩ ⟨"", 0⟩
      = Except.ok
        ⟨"# vtk DataFile Version " ++ versionShow ⟨2, 0⟩ ++ "\n" ++ ("t" ++ "\n")
          ++ "ASCII\n\n" ++ "DATASET RECTILINEAR_GRID\n"
          ++ ("DIMENSIONS " ++ toString (extW.intoDims).1 ++ " "
            ++ toString (extW.intoDims).2.1 ++ " " ++ toString (extW.intoDims).2.2 ++ "\n")
          ++ ("X_COORDINATES " ++ toString (IOBuffer.len ⟨ScalarKind.f32, [0, 1]⟩)
            ++ " " ++ dataTypeStr (IOBuffer.kind ⟨ScalarKind.f32, [0, 1]⟩) ++ "\n")
          ++ (bufShow ⟨ScalarKind.f32, [0, 1]⟩ ++ "\n")
          ++ ("Y_COORDINATES " ++ toString (IOBuffer.len ⟨ScalarKind.f32, [0]⟩)
            ++ " " ++ dataTypeStr (IOBuffer.kind ⟨ScalarKind.f32, [0]⟩) ++ "\n")
          ++ (bufShow ⟨ScalarKind.f32, [0]⟩ ++ "\n")
          ++ ("Z_COORDINATES " ++ toString (IOBuffer.len ⟨ScalarKind.f32, [0, 1, 2]⟩)
            ++ " " ++ dataTypeStr (IOBuffer.kind ⟨ScalarKind.f32, [0, 1, 2]⟩) ++ "\n")
          ++ (bufShow ⟨ScalarKind.f32, [0, 1, 2]⟩ ++ "\n")
          ++ ("\nPOINT_DATA "
            ++ toString (IOBuffer.len ⟨ScalarKind.f32, [0, 1]⟩
              * IOBuffer.len ⟨ScalarKind.f32, [0]⟩
              * IOBuffer.len ⟨ScalarKind.f32, [0, 1, 2]⟩) ++ "\n")
          ++ attribLines (Attributes.mk [] []).point
          ++ ("\nCELL_DATA "
            ++ toString ((IOBuffer.len ⟨ScalarKind.f32, [0, 1]⟩ - 1)
              * (IOBuffer.len ⟨ScalarKind.f32, [0]⟩ - 1)
              * (IOBuffer.len ⟨ScalarKind.f32, [0, 1, 2]⟩ - 1)) ++ "\n")
          ++ attribLines (Attributes.mk [] []).cell ++ "\n", c⟩ :=
  ⟨⟨⟨by decide, by decide, by decide⟩, rfl, rfl⟩,
    rectilinear_grid_counts ⟨2, 0⟩ "t" extW ⟨ScalarKind.f32, [0, 1]⟩
      ⟨ScalarKind.f32, [0]⟩ ⟨ScalarKind.f32, [0, 1, 2]⟩ ⟨[], []⟩
      (by decide) (by decide) (by decide) rfl rfl⟩

end Vtkio
